import Mathlib

/-!
Verification of the storage/query core of open-tv (`src-tauri/src/sql.rs`).

The SQLite database is modelled as an in-memory state: each table is a list
of rows in rowid (insertion) order, which is the order SQLite returns rows
in for the unordered `SELECT`s of this codebase.  Each repository function
of `sql.rs` is translated into a pure function over this state.  Machine
integers are modelled as `Nat`/`Int`, with an explicit `% 2^w` at the two
places where the Rust code performs wrapping-capable unsigned arithmetic
(the `u16` offset in `search`, the `u8` offset in `search_group`; release
builds of Rust wrap on overflow).

The struct declarations of `types.rs` (`Filters`, `Channel`, `Source`,
`ChannelHttpHeaders`, `CustomChannel`) and the constant modules
`media_type` / `view_type` are not part of the provided sources; their
fields and types are reconstructed from their uses in `sql.rs`, and the
constants are modelled from the spec (§3) where noted.
-/

namespace OpenTV

/-- `const PAGE_SIZE: u8 = 36;` (sql.rs line 17). -/
def PAGE_SIZE : Nat := 36

namespace view_type

/-- Modelled from the spec: browse-view kind "all" (§3 enumerates the
browse views as all, favorites-only, categories; only distinctness of the
three constants is used by `sql.rs`). -/
def ALL : Nat := 0

/-- Modelled from the spec: browse-view kind "favorites-only". -/
def FAVORITES : Nat := 1

/-- Modelled from the spec: browse-view kind "categories". -/
def CATEGORIES : Nat := 2

end view_type

namespace media_type

/-- Modelled from the spec: the media kind used for series episodes.  The
spec (§4.4) says a series scope forces the allowed-kinds set to "episode",
and `search` (sql.rs line 324) writes the numeral 1 for that forced kind. -/
def EPISODE : Nat := 1

/-- Modelled from the spec: the synthesized media kind "group" used only
for category rows produced by the group-browse query (`row_to_group`,
sql.rs line 436 writes `media_type::GROUP`).  The concrete numeral is not
observable in the provided sources; only its use as a tag matters. -/
def GROUP : Nat := 4

end media_type

/-- A row of the `channels` table (schema at sql.rs lines 55-67). -/
structure ChannelRow where
  id : Int
  name : String
  image : Option String
  url : Option String
  media_type : Nat
  source_id : Option Int
  favorite : Bool
  series_id : Option Int
  group_id : Option Int
deriving Repr, DecidableEq

/-- A row of the `groups` table (schema at sql.rs lines 74-80). -/
structure GroupRow where
  id : Int
  name : String
  image : Option String
  source_id : Option Int
deriving Repr, DecidableEq

/-- A row of the `channel_http_headers` table (migration at sql.rs
lines 135-144). -/
structure HeaderRow where
  id : Int
  channel_id : Option Int
  referrer : Option String
  user_agent : Option String
  http_origin : Option String
  ignore_ssl : Option Bool
deriving Repr, DecidableEq

/-- A row of the `sources` table (schema at sql.rs lines 45-53 plus the
`use_tvg_id` column added by the migration). -/
structure SourceRow where
  id : Int
  name : String
  source_type : Nat
  url : Option String
  username : Option String
  password : Option String
  enabled : Bool
  use_tvg_id : Option Bool
deriving Repr, DecidableEq

/-- The `Source` struct of `types.rs` (fields reconstructed from
`create_or_find_source_by_name`, `row_to_source` and `get_custom_source`). -/
structure Source where
  id : Option Int
  name : String
  source_type : Nat
  url : Option String
  username : Option String
  password : Option String
  enabled : Bool
  url_origin : Option String
  use_tvg_id : Option Bool
deriving Repr, DecidableEq

/-- The `Channel` struct of `types.rs` (fields reconstructed from
`insert_channel`, `row_to_channel` and `row_to_custom_channel`). -/
structure Channel where
  id : Option Int
  name : String
  group : Option String
  image : Option String
  url : Option String
  media_type : Nat
  source_id : Option Int
  favorite : Bool
  series_id : Option Int
  group_id : Option Int
deriving Repr, DecidableEq

/-- The `ChannelHttpHeaders` struct of `types.rs` (fields reconstructed
from `row_to_channel_headers` and `channel_headers_empty`). -/
structure ChannelHttpHeaders where
  id : Option Int
  channel_id : Option Int
  referrer : Option String
  user_agent : Option String
  http_origin : Option String
  ignore_ssl : Option Bool
deriving Repr, DecidableEq

/-- The `CustomChannel` struct of `types.rs` (fields reconstructed from
`add_custom_channel` and `edit_custom_channel_tx`). -/
structure CustomChannel where
  data : Channel
  headers : Option ChannelHttpHeaders
deriving Repr, DecidableEq

/-- The `Filters` struct of `types.rs` (fields reconstructed from `search`
and `search_group`; `page` is a `u8` in Rust, which theorems record as the
side condition `page ≤ 255` where it matters). -/
structure Filters where
  page : Nat
  query : Option String
  media_types : Option (List Nat)
  source_ids : List Int
  view_type : Nat
  group_id : Option Int
  series_id : Option Int
deriving Repr, DecidableEq

/-- The whole database file: one list of rows per table, in rowid order,
plus the next rowid per table and the connection's `last_insert_rowid`. -/
structure DB where
  sources : List SourceRow := []
  channels : List ChannelRow := []
  groups : List GroupRow := []
  headers : List HeaderRow := []
  nextSourceId : Int := 1
  nextChannelId : Int := 1
  nextGroupId : Int := 1
  nextHeaderId : Int := 1
  lastInsertRowid : Int := 0
deriving Repr, DecidableEq

/-! ## The LIKE operator and SQL helpers -/

/-- Does `p` hold of some suffix of the string?  Used to interpret the
`%` wildcard, which may swallow any prefix. -/
def anySuffix (p : List Char → Bool) : List Char → Bool
  | [] => p []
  | c :: s => p (c :: s) || anySuffix p s

/-- SQLite's `LIKE` on exploded strings: `%` matches any sequence, `_`
matches one character, other characters compare case-insensitively. -/
def likeChars : List Char → List Char → Bool
  | [], s => s.isEmpty
  | '%' :: ps, s => anySuffix (likeChars ps) s
  | '_' :: ps, s =>
    match s with
    | [] => false
    | _ :: s' => likeChars ps s'
  | p :: ps, s =>
    match s with
    | [] => false
    | c :: s' => (p.toLower == c.toLower) && likeChars ps s'

/-- `name LIKE pattern` for SQLite. -/
def likeMatch (pattern s : String) : Bool :=
  likeChars pattern.data s.data

/-- `to_sql_like` (sql.rs lines 399-401): wrap the text filter in `%`
wildcards, or use the bare `%` wildcard when absent. -/
def to_sql_like (query : Option String) : String :=
  match query with
  | some x => "%" ++ x ++ "%"
  | none => "%"

/-- `generate_placeholders` (sql.rs lines 374-379): `size` copies of `?`
joined by commas — note there is no special case for `size = 0`, which
yields the empty string. -/
def generate_placeholders (size : Nat) : String :=
  String.intercalate "," (List.replicate size "?")

/-- SQL equality between a nullable column value and a non-null constant:
`NULL = x` is not true. -/
def optMemInt (v : Option Int) (allowed : List Int) : Bool :=
  match v with
  | some x => allowed.contains x
  | none => false

/-! ## The filter-to-query compiler (`search` / `search_group`) -/

/-- The routing condition of `search` (sql.rs lines 315-318). -/
def routesToGroup (f : Filters) : Bool :=
  f.view_type == view_type.CATEGORIES && f.group_id == none && f.series_id == none

/-- The `media_types` local of `search` (sql.rs lines 323-326): a series
scope forces the single kind `1`; otherwise the caller's set is unwrapped
(`none` here means the Rust code panics on `unwrap`). -/
def effective_media_types (f : Filters) : Option (List Nat) :=
  if f.series_id.isSome then some [media_type.EPISODE] else f.media_types

/-- The `AND favorite = 1` clause appended at sql.rs lines 338-340. -/
def favorites_clause (f : Filters) : String :=
  if f.view_type == view_type.FAVORITES && f.series_id == none then "\nAND favorite = 1"
  else ""

/-- The series/group clause appended at sql.rs lines 341-347: the series
predicate when a series scope is set, else the group predicate when a
group scope is set, else nothing. -/
def scope_clause (f : Filters) : String :=
  if f.series_id.isSome then "\nAND series_id = ?"
  else if f.group_id.isSome then "\nAND group_id = ?"
  else ""

/-- The SQL text built by `search` (sql.rs lines 327-348), with
`media_types` the already-unwrapped kind list. -/
def search_sql (f : Filters) (media_types : List Nat) : String :=
  "\n        SELECT * FROM CHANNELS\n        WHERE name LIKE ?\n        AND media_type IN ("
    ++ generate_placeholders media_types.length
    ++ ")\n\t\tAND source_id IN ("
    ++ generate_placeholders f.source_ids.length
    ++ ")\n        AND url IS NOT NULL"
    ++ favorites_clause f ++ scope_clause f ++ "\nLIMIT ?, ?"

/-- The WHERE predicate of the channel-browse query, evaluated on one
stored row (conjuncts in the order the SQL text lists them). -/
def channelPred (f : Filters) (media_types : List Nat) (r : ChannelRow) : Bool :=
  likeMatch (to_sql_like f.query) r.name
    && media_types.contains r.media_type
    && optMemInt r.source_id f.source_ids
    && r.url.isSome
    && (if f.view_type == view_type.FAVORITES && f.series_id == none then r.favorite else true)
    && (match f.series_id with
        | some sid => r.series_id == some sid
        | none =>
          match f.group_id with
          | some gid => r.group_id == some gid
          | none => true)

/-- The WHERE predicate of the group-browse query of `search_group`. -/
def groupPred (f : Filters) (g : GroupRow) : Bool :=
  likeMatch (to_sql_like f.query) g.name && optMemInt g.source_id f.source_ids

/-- `row_to_channel` (sql.rs lines 446-460); note it leaves `series_id`
and `group` at `None` in the result. -/
def row_to_channel (r : ChannelRow) : Channel :=
  { id := some r.id
    name := r.name
    group := none
    image := r.image
    url := r.url
    media_type := r.media_type
    source_id := r.source_id
    favorite := r.favorite
    series_id := none
    group_id := r.group_id }

/-- `row_to_group` (sql.rs lines 430-444): a group row synthesized as a
`Channel` with the `GROUP` media kind and no url. -/
def row_to_group (g : GroupRow) : Channel :=
  { id := some g.id
    name := g.name
    group := none
    image := g.image
    url := none
    media_type := media_type.GROUP
    source_id := g.source_id
    favorite := false
    series_id := none
    group_id := none }

/-- `search_group` (sql.rs lines 403-428).  The offset is computed in `u8`
arithmetic (`filters.page * PAGE_SIZE - PAGE_SIZE` with `page: u8` and
`PAGE_SIZE: u8`), so it wraps modulo 256 in release builds; the model
makes the wrap explicit. -/
def search_group (f : Filters) (db : DB) : List Channel :=
  let offset := (f.page * PAGE_SIZE + 256 - PAGE_SIZE) % 256
  (((db.groups.filter (groupPred f)).drop offset).take PAGE_SIZE).map row_to_group

/-- `search` (sql.rs lines 314-368).  Routing, the `u16` offset
(`filters.page as u16 * PAGE_SIZE as u16 - PAGE_SIZE as u16`, wrapping
modulo 2^16), the forced media-kind set under a series scope, and the
`LIMIT offset, PAGE_SIZE` pagination.  `none` models the Rust panic on
`filters.media_types.clone().unwrap()` when the set is absent. -/
def search (f : Filters) (db : DB) : Option (List Channel) :=
  if routesToGroup f then
    some (search_group f db)
  else
    let offset := (f.page * PAGE_SIZE + 65536 - PAGE_SIZE) % 65536
    match effective_media_types f with
    | none => none
    | some media_types =>
      some ((((db.channels.filter (channelPred f media_types)).drop offset).take
        PAGE_SIZE).map row_to_channel)

/-! ## Entity repository write paths -/

/-- Equality of two nullable values as the unique-index conflict test:
SQLite treats NULLs in a unique index as distinct, so only two non-null
equal values conflict. -/
def optConflict {α : Type} [BEq α] (a b : Option α) : Bool :=
  match a, b with
  | some x, some y => x == y
  | _, _ => false

/-- `create_or_find_source_by_name` (sql.rs lines 161-177): look up the id
by name; when absent, insert and return the new rowid. -/
def create_or_find_source_by_name (source : Source) (db : DB) : Int × DB :=
  match db.sources.find? (fun r => r.name == source.name) with
  | some r => (r.id, db)
  | none =>
    let id := db.nextSourceId
    (id,
      { db with
        sources := db.sources ++
          [{ id := id
             name := source.name
             source_type := source.source_type
             url := source.url
             username := source.username
             password := source.password
             enabled := true
             use_tvg_id := source.use_tvg_id }]
        nextSourceId := id + 1
        lastInsertRowid := id })

/-- The `channels_unique` index conflict on (name, url, source_id) (after
the migration at sql.rs line 134). -/
def channelConflict (r : ChannelRow) (ch : Channel) : Bool :=
  r.name == ch.name && optConflict r.url ch.url && optConflict r.source_id ch.source_id

/-- `insert_channel` (sql.rs lines 179-197): `INSERT OR IGNORE` keyed on
the (name, url, source_id) unique index; an ignored insert changes nothing
(including `last_insert_rowid`). -/
def insert_channel (ch : Channel) (db : DB) : DB :=
  if db.channels.any (fun r => channelConflict r ch) then db
  else
    let id := db.nextChannelId
    { db with
      channels := db.channels ++
        [{ id := id
           name := ch.name
           image := ch.image
           url := ch.url
           media_type := ch.media_type
           source_id := ch.source_id
           favorite := ch.favorite
           series_id := ch.series_id
           group_id := ch.group_id }]
      nextChannelId := id + 1
      lastInsertRowid := id }

/-- `insert_channel_headers` (sql.rs lines 199-213): `INSERT OR IGNORE`
keyed on the unique `channel_id` index; the column list omits
`ignore_ssl`, which therefore takes its schema default `0`. -/
def insert_channel_headers (h : ChannelHttpHeaders) (db : DB) : DB :=
  if db.headers.any (fun r => optConflict r.channel_id h.channel_id) then db
  else
    let id := db.nextHeaderId
    { db with
      headers := db.headers ++
        [{ id := id
           channel_id := h.channel_id
           referrer := h.referrer
           user_agent := h.user_agent
           http_origin := h.http_origin
           ignore_ssl := some false }]
      nextHeaderId := id + 1
      lastInsertRowid := id }

/-- `insert_group` (sql.rs lines 215-232): `INSERT OR IGNORE` keyed on the
(name, source_id) unique index `index_group_unique`; when the insert is
ignored (`rows_changed == 0`) the function returns the error
`"Failed to insert group: <name>"`. -/
def insert_group (group : String) (image : Option String) (source_id : Int)
    (db : DB) : Except String (Int × DB) :=
  if db.groups.any (fun g => g.name == group && g.source_id == some source_id) then
    .error ("Failed to insert group: " ++ group)
  else
    let id := db.nextGroupId
    .ok (id,
      { db with
        groups := db.groups ++
          [{ id := id, name := group, image := image, source_id := some source_id }]
        nextGroupId := id + 1
        lastInsertRowid := id })

/-- `set_channel_group_id` (sql.rs lines 234-258).  The caller's
`HashMap<String, i64>` cache is modelled as an association list; a cache
miss calls `insert_group` and propagates its error. -/
def set_channel_group_id (groups : List (String × Int)) (channel : Channel)
    (source_id : Int) (db : DB) :
    Except String (List (String × Int) × Channel × DB) :=
  match channel.group with
  | none => .ok (groups, channel, db)
  | some name =>
    match groups.lookup name with
    | none =>
      match insert_group name channel.image source_id db with
      | .error e => .error e
      | .ok (id, db') =>
        .ok ((name, id) :: groups, { channel with group_id := some id }, db')
    | some id => .ok (groups, { channel with group_id := some id }, db)

/-- `delete_channels_by_source` (sql.rs lines 462-473): delete the rows of
the source with `favorite = 0`.  (The Rust code binds the id as a string;
SQLite's integer affinity on the column converts it back, so the
comparison is numeric.) -/
def delete_channels_by_source (source_id : Int) (db : DB) : DB :=
  { db with
    channels := db.channels.filter
      (fun r => !(r.source_id == some source_id && r.favorite == false)) }

/-- The three-valued `ID NOT IN (SELECT group_id FROM channels WHERE
favorite = 1)` of `delete_groups_by_source`: with `gid` never null, the
predicate is TRUE only when `gid` matches no element of the subquery and
the subquery produced no NULL (a NULL member makes it NULL, not TRUE). -/
def notInFavGroups (favGroupIds : List (Option Int)) (gid : Int) : Bool :=
  !(favGroupIds.contains (some gid)) && !(favGroupIds.contains none)

/-- `delete_groups_by_source` (sql.rs lines 475-490): delete the groups of
the source whose id is `NOT IN` the group ids of favorited channels (all
channels, any source). -/
def delete_groups_by_source (source_id : Int) (db : DB) : DB :=
  let favGroupIds := (db.channels.filter (fun c => c.favorite)).map (fun c => c.group_id)
  { db with
    groups := db.groups.filter
      (fun g => !(g.source_id == some source_id && notInFavGroups favGroupIds g.id)) }

/-- The source-scoped refresh sequence of the spec (§4.3): delete the
source's non-favorited channels, then its unreferenced groups. -/
def refresh_source (source_id : Int) (db : DB) : DB :=
  delete_groups_by_source source_id (delete_channels_by_source source_id db)

/-- `channel_headers_empty` (sql.rs lines 631-636). -/
def channel_headers_empty (h : ChannelHttpHeaders) : Bool :=
  h.ignore_ssl.isNone && h.http_origin.isNone && h.referrer.isNone && h.user_agent.isNone

/-- `add_custom_channel` (sql.rs lines 619-629): insert the channel row,
then — unless the header set is absent or all-empty — attach the headers
to `tx.last_insert_rowid()`. -/
def add_custom_channel (channel : CustomChannel) (db : DB) : DB :=
  let db1 := insert_channel channel.data db
  match channel.headers with
  | none => db1
  | some headers =>
    if channel_headers_empty headers then db1
    else insert_channel_headers { headers with channel_id := some db1.lastInsertRowid } db1

/-! ## The custom-channel edit transaction -/

/-- Errors surfaced by the statements of the edit transaction. -/
inductive SqlError where
  | ioError
  | constraintViolation
deriving Repr, DecidableEq

/-- Environmental failures (disk I/O etc.) of the three statements that
`edit_custom_channel_tx` may execute; rusqlite reports such failures as
`Err` from `execute`. -/
structure TxEnv where
  failUpdate : Bool := false
  failUpsert : Bool := false
  failDelete : Bool := false
deriving Repr, DecidableEq

/-- Whether a channel list violates the `channels_unique` (name, url,
source_id) index: two distinct rows with equal non-null key parts. -/
def channelsViolateUnique : List ChannelRow → Bool
  | [] => false
  | r :: rs =>
    rs.any (fun r' =>
      r.name == r'.name && optConflict r.url r'.url && optConflict r.source_id r'.source_id)
      || channelsViolateUnique rs

/-- The `UPDATE channels SET name, image, url, media_type, group_id WHERE
id = ?` statement of `edit_custom_channel_tx` (sql.rs lines 668-682); it
fails when the environment fails it or when the update violates the
(name, url, source_id) unique index. -/
def update_channel_row (env : TxEnv) (ch : Channel) (db : DB) : Except SqlError DB :=
  if env.failUpdate then .error .ioError
  else
    let updated := db.channels.map (fun r =>
      if some r.id == ch.id then
        { r with
          name := ch.name
          image := ch.image
          url := ch.url
          media_type := ch.media_type
          group_id := ch.group_id }
      else r)
    if channelsViolateUnique updated then .error .constraintViolation
    else .ok { db with channels := updated }

/-- The header upsert of `edit_custom_channel_tx` (sql.rs lines 685-702):
`INSERT ... ON CONFLICT(channel_id) DO UPDATE` of all four header fields.
Note this statement runs whether or not the header set is all-empty. -/
def upsert_channel_headers (env : TxEnv) (h : ChannelHttpHeaders) (db : DB) :
    Except SqlError DB :=
  if env.failUpsert then .error .ioError
  else if db.headers.any (fun r => optConflict r.channel_id h.channel_id) then
    .ok { db with
      headers := db.headers.map (fun r =>
        if optConflict r.channel_id h.channel_id then
          { r with
            referrer := h.referrer
            user_agent := h.user_agent
            http_origin := h.http_origin
            ignore_ssl := h.ignore_ssl }
        else r) }
  else
    let id := db.nextHeaderId
    .ok { db with
      headers := db.headers ++
        [{ id := id
           channel_id := h.channel_id
           referrer := h.referrer
           user_agent := h.user_agent
           http_origin := h.http_origin
           ignore_ssl := h.ignore_ssl }]
      nextHeaderId := id + 1
      lastInsertRowid := id }

/-- The `DELETE FROM channel_http_headers WHERE channel_id = ?` statement
of `edit_custom_channel_tx` (sql.rs lines 704-707); a NULL bound id
matches no row. -/
def delete_channel_headers_row (env : TxEnv) (channel_id : Option Int) (db : DB) :
    Except SqlError DB :=
  if env.failDelete then .error .ioError
  else .ok { db with headers := db.headers.filter (fun r => !(optConflict r.channel_id channel_id)) }

/-- `edit_custom_channel_tx` (sql.rs lines 667-710): update the channel
row, then upsert the header row (with `channel_id` forced to the channel's
id) or delete it when the caller supplies no header set. -/
def edit_custom_channel_tx (env : TxEnv) (channel : CustomChannel) (db : DB) :
    Except SqlError DB := do
  let db1 ← update_channel_row env channel.data db
  match channel.headers with
  | some headers =>
    upsert_channel_headers env { headers with channel_id := channel.data.id } db1
  | none => delete_channel_headers_row env channel.data.id db1

/-- `edit_custom_channel` (sql.rs lines 652-665): run the transaction body
and commit on success; on failure roll the transaction back (discarding
every statement's effect) and surface the single error.  The result pairs
the outcome the caller observes with the database state afterwards. -/
def edit_custom_channel (env : TxEnv) (channel : CustomChannel) (db : DB) :
    Option SqlError × DB :=
  match edit_custom_channel_tx env channel db with
  | .ok db' => (none, db')
  | .error e => (some e, db)

/-! ## Concrete instances used by witnesses and counterexamples -/

/-- Two stored channels of one source with distinct (name, url). -/
def exDb1 : DB :=
  { channels :=
      [{ id := 1, name := "a", image := none, url := some "u1", media_type := 1,
         source_id := some 1, favorite := false, series_id := none, group_id := none },
       { id := 2, name := "b", image := none, url := some "u2", media_type := 1,
         source_id := some 1, favorite := false, series_id := none, group_id := none }]
    nextChannelId := 3 }

/-- An edit that renames channel 1 to channel 2's (name, url), violating
the `channels_unique` index. -/
def exCh1 : CustomChannel :=
  { data :=
      { id := some 1, name := "b", group := none, image := none, url := some "u2",
        media_type := 1, source_id := some 1, favorite := false, series_id := none,
        group_id := none }
    headers := none }

/-- A source value to upsert twice. -/
def exS7 : Source :=
  { id := none, name := "tv", source_type := 2, url := none, username := none,
    password := none, enabled := true, url_origin := none, use_tvg_id := none }

/-! ## Claims -/

/-- C1: custom-channel edit is atomic — whenever `edit_custom_channel`
surfaces an error (from any of the channel-row update, the header upsert,
or the header delete, whether an environmental failure or a constraint
violation), the database afterwards is exactly the pre-edit database: the
channel rows (hence the edited row's name, image, url, media_type and
group_id) and the header rows are unchanged, and the caller observes the
single error `e`. -/
theorem edit_custom_channel_rolls_back (env : TxEnv) (ch : CustomChannel) (db : DB)
    (e : SqlError) (h : (edit_custom_channel env ch db).1 = some e) :
    (edit_custom_channel env ch db).2 = db ∧
    (edit_custom_channel env ch db).2.channels = db.channels ∧
    (edit_custom_channel env ch db).2.headers = db.headers := by
  unfold edit_custom_channel at h ⊢
  cases htx : edit_custom_channel_tx env ch db with
  | ok db' => rw [htx] at h; simp at h
  | error e' => exact ⟨rfl, rfl, rfl⟩

/-- C1 witness: the concrete edit `exCh1` fails on the unique-index
violation and the database `exDb1` is unchanged. -/
theorem edit_custom_channel_rolls_back_witness :
    (edit_custom_channel {} exCh1 exDb1).1 = some SqlError.constraintViolation ∧
    (edit_custom_channel {} exCh1 exDb1).2 = exDb1 :=
  ⟨by decide,
   (edit_custom_channel_rolls_back {} exCh1 exDb1 SqlError.constraintViolation (by decide)).1⟩

/-- C10: `search` is not total — when the media-kinds set is `None`, the
series scope is `None`, and the shape does not route to the group-browse
query (the view is not categories, or a group scope is set), `search`
panics on `filters.media_types.clone().unwrap()` (modelled as `none`)
instead of returning an error value. -/
theorem search_unwrap_panic (f : Filters) (db : DB)
    (hm : f.media_types = none) (hs : f.series_id = none)
    (hshape : f.view_type ≠ view_type.CATEGORIES ∨ f.group_id ≠ none) :
    search f db = none := by
  have hroute : routesToGroup f = false := by
    unfold routesToGroup
    rcases hshape with h | h <;> simp [h]
  unfold search
  rw [hroute]
  simp [effective_media_types, hs, hm]

/-- C10 witness: a flat-view filter with no media-kind set panics. -/
theorem search_unwrap_panic_witness :
    search ⟨1, none, none, [], view_type.ALL, none, none⟩ {} = none :=
  search_unwrap_panic ⟨1, none, none, [], view_type.ALL, none, none⟩ {} rfl rfl
    (Or.inl (by decide))

/-- C7: source creation is an idempotent upsert-by-name — starting from a
database with no source of that name, the first call inserts exactly one
row, and a second call with the same name returns the id produced by the
first call and changes nothing. -/
theorem create_or_find_source_idempotent (db : DB) (s : Source)
    (h : ∀ r ∈ db.sources, r.name ≠ s.name) :
    (create_or_find_source_by_name s (create_or_find_source_by_name s db).2).1
        = (create_or_find_source_by_name s db).1 ∧
    (create_or_find_source_by_name s (create_or_find_source_by_name s db).2).2
        = (create_or_find_source_by_name s db).2 ∧
    (create_or_find_source_by_name s db).2.sources.length = db.sources.length + 1 ∧
    ((create_or_find_source_by_name s db).2.sources.filter
        (fun r => r.name == s.name)).length = 1 := by
  have hfind : db.sources.find? (fun r => r.name == s.name) = none := by
    rw [List.find?_eq_none]
    intro x hx
    simpa using h x hx
  have hfilter : db.sources.filter (fun r => r.name == s.name) = [] := by
    rw [List.filter_eq_nil_iff]
    intro x hx
    simpa using h x hx
  unfold create_or_find_source_by_name
  rw [hfind]
  simp [List.find?_append, hfind, List.filter_append, hfilter]

/-- C7 witness: inserting the same-named source twice into the empty
database yields id 1 both times and a single row. -/
theorem create_or_find_source_idempotent_witness :
    (create_or_find_source_by_name exS7 (create_or_find_source_by_name exS7 {}).2).1
        = (create_or_find_source_by_name exS7 {}).1 ∧
    (create_or_find_source_by_name exS7 {}).2.sources.length = 1 :=
  ⟨(create_or_find_source_idempotent {} exS7 (by intro r hr; simp at hr)).1,
   (create_or_find_source_idempotent {} exS7 (by intro r hr; simp at hr)).2.2.1⟩

/-- An empty allowed-source set makes the source predicate false on any row. -/
theorem optMemInt_nil (v : Option Int) : optMemInt v [] = false := by
  cases v <;> rfl

/-- Helper: every entry of a channel-browse `search` result is the image
of a stored channel row satisfying the compiled WHERE predicate. -/
theorem mem_search_channels {f : Filters} {db : DB} {mts : List Nat} {rows : List Channel}
    (hroute : routesToGroup f = false)
    (hm : effective_media_types f = some mts)
    (hrows : search f db = some rows) {c : Channel} (hc : c ∈ rows) :
    ∃ r ∈ db.channels, c = row_to_channel r ∧ channelPred f mts r = true := by
  unfold search at hrows
  rw [if_neg (by simp [hroute]), hm] at hrows
  simp only [Option.some.injEq] at hrows
  subst hrows
  obtain ⟨r, hr, rfl⟩ := List.mem_map.mp hc
  have hr' : r ∈ db.channels.filter (channelPred f mts) :=
    List.mem_of_mem_drop (List.mem_of_mem_take hr)
  have hmem := List.mem_filter.mp hr'
  exact ⟨r, hmem.1, rfl, hmem.2⟩

/-- C3 (amended): with an empty allowed-source set, and a shape that does
not panic on the absent media-kind set, `search` returns the empty list —
because SQLite accepts the empty `IN ()` list produced by
`generate_placeholders 0` as a zero-row predicate, not because the
compiler special-cases it. -/
theorem search_empty_sources_returns_empty (f : Filters) (db : DB)
    (hsrc : f.source_ids = [])
    (hok : f.media_types.isSome = true ∨ f.series_id.isSome = true ∨
      routesToGroup f = true) :
    search f db = some [] := by
  unfold search
  by_cases hroute : routesToGroup f = true
  · rw [if_pos hroute]
    have hnil : db.groups.filter (groupPred f) = [] := by
      rw [List.filter_eq_nil_iff]
      intro g _
      simp [groupPred, hsrc, optMemInt_nil]
    simp [search_group, hnil]
  · rw [if_neg hroute]
    cases hm : effective_media_types f with
    | none =>
      exfalso
      unfold effective_media_types at hm
      by_cases hs : f.series_id.isSome = true
      · rw [if_pos hs] at hm; exact Option.noConfusion hm
      · rw [if_neg hs] at hm
        rcases hok with h | h | h
        · rw [hm] at h; exact Bool.false_ne_true h
        · exact hs h
        · exact hroute h
    | some mts =>
      have hnil : db.channels.filter (channelPred f mts) = [] := by
        rw [List.filter_eq_nil_iff]
        intro r _
        simp [channelPred, hsrc, optMemInt_nil]
      simp [hnil]

/-- C3 witness: a flat browse over no sources on a database that does hold
a matching channel still returns the empty list. -/
theorem search_empty_sources_returns_empty_witness :
    search ⟨1, none, some [1], [], view_type.ALL, none, none⟩ exDb1 = some [] :=
  search_empty_sources_returns_empty ⟨1, none, some [1], [], view_type.ALL, none, none⟩
    exDb1 rfl (Or.inl rfl)

/-- C3 counterexample: the compiler does not special-case the empty
placeholder list — `generate_placeholders 0` is the empty string, and the
SQL text `search` builds for an empty allowed-source set contains the bare
`IN ()` (accepted by SQLite, invalid in most engines), exactly the
uniform template instantiated with an empty list. -/
theorem search_sql_empty_sources_no_special_case :
    generate_placeholders 0 = "" ∧
    search_sql ⟨1, none, some [1], [], view_type.ALL, none, none⟩ [1] =
      "\n        SELECT * FROM CHANNELS\n        WHERE name LIKE ?\n        AND media_type IN (?)\n\t\tAND source_id IN ()\n        AND url IS NOT NULL\nLIMIT ?, ?" := by
  constructor
  · rfl
  · rfl

/-- C6: the query-shape decision rule — `search` runs the group-browse
query exactly when the view is categories and neither a group nor a
series scope is set, and then every returned entry carries the
synthesized `GROUP` media kind with a null url; every other shape runs
the channel-browse query, whose returned entries are images of stored
channel rows with a non-null url. -/
theorem search_shape_decision (f : Filters) (db : DB) :
    (routesToGroup f = true →
      search f db = some (search_group f db) ∧
      ∀ c ∈ search_group f db, c.media_type = media_type.GROUP ∧ c.url = none) ∧
    (routesToGroup f = false →
      ∀ rows, search f db = some rows →
        ∀ c ∈ rows, ∃ r ∈ db.channels, c = row_to_channel r ∧ r.url ≠ none) := by
  constructor
  · intro hroute
    constructor
    · unfold search
      rw [if_pos hroute]
    · intro c hc
      unfold search_group at hc
      obtain ⟨g, _, rfl⟩ := List.mem_map.mp hc
      exact ⟨rfl, rfl⟩
  · intro hroute rows hrows c hc
    cases hm : effective_media_types f with
    | none =>
      exfalso
      unfold search at hrows
      rw [if_neg (by simp [hroute]), hm] at hrows
      exact Option.noConfusion hrows
    | some mts =>
      obtain ⟨r, hr, hcr, hpred⟩ := mem_search_channels hroute hm hrows hc
      refine ⟨r, hr, hcr, ?_⟩
      simp only [channelPred, Bool.and_eq_true] at hpred
      exact Option.ne_none_iff_isSome.mpr hpred.1.1.2

/-- C6 witness: a categories-view filter routes to the group query. -/
theorem search_shape_decision_witness :
    search ⟨1, none, none, [1], view_type.CATEGORIES, none, none⟩ exDb1 =
      some (search_group ⟨1, none, none, [1], view_type.CATEGORIES, none, none⟩ exDb1) :=
  ((search_shape_decision ⟨1, none, none, [1], view_type.CATEGORIES, none, none⟩ exDb1).1
    (by decide)).1

/-- C8: scoping in the channel-browse query — a series scope forces the
allowed media-kind set to the single episode kind and adds exactly the
series predicate (every returned entry comes from a stored row with that
series id and the episode kind); otherwise a group scope adds exactly the
group predicate; with neither scope no extra predicate is appended, so at
most one of the two is ever added. -/
theorem search_scope_predicates (f : Filters) (db : DB) :
    (∀ sid, f.series_id = some sid →
      effective_media_types f = some [media_type.EPISODE] ∧
      scope_clause f = "\nAND series_id = ?" ∧
      ∀ rows, search f db = some rows → ∀ c ∈ rows, ∃ r ∈ db.channels,
        c = row_to_channel r ∧ r.series_id = some sid ∧
          r.media_type = media_type.EPISODE) ∧
    (f.series_id = none → ∀ gid, f.group_id = some gid →
      scope_clause f = "\nAND group_id = ?" ∧
      ∀ rows, search f db = some rows → ∀ c ∈ rows, ∃ r ∈ db.channels,
        c = row_to_channel r ∧ r.group_id = some gid) ∧
    (f.series_id = none → f.group_id = none → scope_clause f = "") := by
  refine ⟨?_, ?_, ?_⟩
  · intro sid hs
    have hm : effective_media_types f = some [media_type.EPISODE] := by
      simp [effective_media_types, hs]
    have hroute : routesToGroup f = false := by
      simp [routesToGroup, hs]
    refine ⟨hm, by simp [scope_clause, hs], ?_⟩
    intro rows hrows c hc
    obtain ⟨r, hr, hcr, hpred⟩ := mem_search_channels hroute hm hrows hc
    refine ⟨r, hr, hcr, ?_, ?_⟩
    · have := hpred
      simp only [channelPred, hs, Bool.and_eq_true] at this
      simpa using this.2
    · have := hpred
      simp only [channelPred, Bool.and_eq_true] at this
      have hcontains := this.1.1.1.1.2
      simpa [media_type.EPISODE] using hcontains
  · intro hs gid hg
    have hroute : routesToGroup f = false := by
      simp [routesToGroup, hg]
    refine ⟨by simp [scope_clause, hs, hg], ?_⟩
    intro rows hrows c hc
    cases hm : effective_media_types f with
    | none =>
      exfalso
      unfold search at hrows
      rw [if_neg (by simp [hroute]), hm] at hrows
      exact Option.noConfusion hrows
    | some mts =>
      obtain ⟨r, hr, hcr, hpred⟩ := mem_search_channels hroute hm hrows hc
      refine ⟨r, hr, hcr, ?_⟩
      simp only [channelPred, hs, hg, Bool.and_eq_true] at hpred
      simpa using hpred.2
  · intro hs hg
    simp [scope_clause, hs, hg]

/-- C8 witness: a series-scoped filter (with no caller media kinds) uses
the forced episode kind and appends the series predicate. -/
theorem search_scope_predicates_witness :
    effective_media_types ⟨1, none, none, [1], view_type.ALL, none, some 3⟩ =
        some [media_type.EPISODE] ∧
    scope_clause ⟨1, none, none, [1], view_type.ALL, none, some 3⟩ =
        "\nAND series_id = ?" :=
  ⟨((search_scope_predicates ⟨1, none, none, [1], view_type.ALL, none, some 3⟩ exDb1).1
      3 rfl).1,
   ((search_scope_predicates ⟨1, none, none, [1], view_type.ALL, none, some 3⟩ exDb1).1
      3 rfl).2.1⟩

/-- Inserting a channel row never touches the headers table. -/
theorem insert_channel_preserves_headers (ch : Channel) (db : DB) :
    (insert_channel ch db).headers = db.headers := by
  unfold insert_channel
  split <;> rfl

/-- Deleting a source's non-favorited channels leaves the favorited rows
of the whole table untouched, so the favorited-group subquery is the same
before and after. -/
theorem delete_channels_preserves_favorites (s : Int) (db : DB) :
    (delete_channels_by_source s db).channels.filter (fun c => c.favorite)
      = db.channels.filter (fun c => c.favorite) := by
  unfold delete_channels_by_source
  simp only [List.filter_filter]
  apply List.filter_congr
  intro c _
  cases hf : c.favorite <;> simp [hf]

/-- C4 (amended): provided every favorited channel has a group id, the
source-scoped refresh (`delete_channels_by_source` then
`delete_groups_by_source`) deletes exactly the source's channels with
`favorite = false` and exactly the source's groups not referenced by any
favorited channel.  The proviso is forced by SQL's three-valued `NOT IN`:
one favorited channel with a NULL `group_id` makes the subquery contain
NULL and then no group at all is deleted. -/
theorem refresh_source_exact (s : Int) (db : DB)
    (hnull : ∀ c ∈ db.channels, c.favorite = true → c.group_id ≠ none) :
    (∀ c, c ∈ (refresh_source s db).channels ↔
      c ∈ db.channels ∧ ¬(c.source_id = some s ∧ c.favorite = false)) ∧
    (∀ g, g ∈ (refresh_source s db).groups ↔
      g ∈ db.groups ∧ ¬(g.source_id = some s ∧
        ¬∃ c ∈ db.channels, c.favorite = true ∧ c.group_id = some g.id)) := by
  have hchannels : (refresh_source s db).channels
      = db.channels.filter (fun c => !(c.source_id == some s && c.favorite == false)) := rfl
  have hfav := delete_channels_preserves_favorites s db
  have hgroups : (refresh_source s db).groups
      = db.groups.filter (fun g =>
          !(g.source_id == some s &&
            notInFavGroups
              ((db.channels.filter (fun c => c.favorite)).map (fun c => c.group_id)) g.id)) := by
    show (delete_groups_by_source s (delete_channels_by_source s db)).groups = _
    unfold delete_groups_by_source
    rw [hfav]
    rfl
  have hnonull :
      ((db.channels.filter (fun c => c.favorite)).map (fun c => c.group_id)).contains none
        = false := by
    rw [Bool.eq_false_iff]
    intro hcont
    have hmem : (none : Option Int) ∈
        (db.channels.filter (fun c => c.favorite)).map (fun c => c.group_id) :=
      List.elem_iff.mp hcont
    obtain ⟨c, hcmem, hcg⟩ := List.mem_map.mp hmem
    have hcf := List.mem_filter.mp hcmem
    exact hnull c hcf.1 hcf.2 hcg
  have hcontains : ∀ gid : Int,
      (((db.channels.filter (fun c => c.favorite)).map (fun c => c.group_id)).contains
        (some gid) = true)
        ↔ ∃ c ∈ db.channels, c.favorite = true ∧ c.group_id = some gid := by
    intro gid
    rw [show (((db.channels.filter (fun c => c.favorite)).map
        (fun c => c.group_id)).contains (some gid) = true)
      ↔ (some gid) ∈ ((db.channels.filter (fun c => c.favorite)).map
        (fun c => c.group_id)) from ⟨List.elem_iff.mp, List.elem_iff.mpr⟩]
    simp only [List.mem_map, List.mem_filter]
    constructor
    · rintro ⟨c, ⟨hcm, hcf⟩, hcg⟩
      exact ⟨c, hcm, hcf, hcg⟩
    · rintro ⟨c, hcm, hcf, hcg⟩
      exact ⟨c, ⟨hcm, hcf⟩, hcg⟩
  constructor
  · intro c
    rw [hchannels, List.mem_filter]
    constructor
    · rintro ⟨h1, h2⟩
      refine ⟨h1, fun hand => ?_⟩
      rw [hand.1, hand.2] at h2
      simp at h2
    · rintro ⟨h1, h2⟩
      refine ⟨h1, ?_⟩
      by_cases ha : c.source_id = some s
      · have hb : c.favorite = true := by
          rcases Bool.eq_false_or_eq_true c.favorite with hf | hf
          · exact hf
          · exact absurd ⟨ha, hf⟩ h2
        simp [ha, hb]
      · simp [ha]
  · intro g
    rw [hgroups, List.mem_filter]
    have hkey : (!(g.source_id == some s &&
        notInFavGroups
          ((db.channels.filter (fun c => c.favorite)).map (fun c => c.group_id)) g.id)) = true
        ↔ ¬(g.source_id = some s ∧
            ¬∃ c ∈ db.channels, c.favorite = true ∧ c.group_id = some g.id) := by
      unfold notInFavGroups
      rw [hnonull]
      cases hbs : (g.source_id == some s) with
      | false =>
        have hA : g.source_id ≠ some s := by simpa using hbs
        simp [hA]
      | true =>
        have hA : g.source_id = some s := by simpa using hbs
        cases hbc : (((db.channels.filter (fun c => c.favorite)).map
            (fun c => c.group_id)).contains (some g.id)) with
        | false =>
          have hB : ¬∃ c ∈ db.channels, c.favorite = true ∧ c.group_id = some g.id := by
            intro hb
            rw [(hcontains g.id).mpr hb] at hbc
            exact Bool.noConfusion hbc
          simp [hA, hB]
        | true =>
          have hB := (hcontains g.id).mp hbc
          simp [hA, hB]
    exact and_congr_right fun _ => hkey

/-- A database holding one group of source 5 that no channel references,
plus a favorited channel with no group id. -/
def exDbC4 : DB :=
  { channels :=
      [{ id := 1, name := "c", image := none, url := some "u", media_type := 1,
         source_id := some 5, favorite := true, series_id := none, group_id := none }]
    groups := [{ id := 1, name := "g", image := none, source_id := some 5 }]
    nextChannelId := 2
    nextGroupId := 2 }

/-- C4 counterexample: in `exDbC4` the single group belongs to source 5
and is referenced by no favorited channel, so the claim demands its
deletion; but the favorited channel's NULL `group_id` puts a NULL into the
`NOT IN` subquery and the refresh deletes no group at all. -/
theorem refresh_source_null_favorite_counterexample :
    (refresh_source 5 exDbC4).groups = exDbC4.groups ∧
    (exDbC4.groups.map (fun g => g.source_id)) = [some 5] ∧
    exDbC4.channels.all (fun c => !(c.favorite && c.group_id == some 1)) = true := by
  refine ⟨?_, ?_, ?_⟩ <;> decide

/-- A database where every favorited channel has a group id: channel A is
a favorite in group 1, channel B is not favorited; group 2 is empty. -/
def exDbW4 : DB :=
  { channels :=
      [{ id := 1, name := "A", image := none, url := some "a", media_type := 1,
         source_id := some 1, favorite := true, series_id := none, group_id := some 1 },
       { id := 2, name := "B", image := none, url := some "b", media_type := 1,
         source_id := some 1, favorite := false, series_id := none, group_id := some 1 }]
    groups :=
      [{ id := 1, name := "g1", image := none, source_id := some 1 },
       { id := 2, name := "g2", image := none, source_id := some 1 }]
    nextChannelId := 3
    nextGroupId := 3 }

/-- C4 witness: in `exDbW4` the favorited channel A survives the
source-scoped refresh. -/
theorem refresh_source_exact_witness :
    ({ id := 1, name := "A", image := none, url := some "a", media_type := 1,
       source_id := some 1, favorite := true, series_id := none,
       group_id := some 1 } : ChannelRow) ∈ (refresh_source 1 exDbW4).channels :=
  ((refresh_source_exact 1 exDbW4 (by decide)).1 _).mpr ⟨by decide, by decide⟩

/-- C5 (amended): when the channel's group name misses the in-memory cache
but the (name, source) row already exists in the groups table,
`set_channel_group_id` does not recover the existing id — `insert_group`'s
`INSERT OR IGNORE` changes no rows and the call returns the error
`"Failed to insert group: <name>"`; only a cache hit yields the id. -/
theorem set_channel_group_id_cache_miss_errors (cache : List (String × Int))
    (ch : Channel) (db : DB) (s : Int) (name : String)
    (hg : ch.group = some name) (hmiss : cache.lookup name = none)
    (hex : ∃ g ∈ db.groups, g.name = name ∧ g.source_id = some s) :
    set_channel_group_id cache ch s db = .error ("Failed to insert group: " ++ name) := by
  obtain ⟨g, hgm, hgn, hgs⟩ := hex
  have hany : db.groups.any (fun g' => g'.name == name && g'.source_id == some s) = true := by
    rw [List.any_eq_true]
    exact ⟨g, hgm, by simp [hgn, hgs]⟩
  unfold set_channel_group_id
  rw [hg]
  simp only [hmiss]
  unfold insert_group
  rw [if_pos hany]

/-- A database whose groups table already holds ("News", source 2). -/
def exDb5 : DB :=
  { groups := [{ id := 1, name := "News", image := none, source_id := some 2 }]
    nextGroupId := 2 }

/-- A channel to import whose group name is "News". -/
def exCh5 : Channel :=
  { id := none, name := "x", group := some "News", image := none, url := some "u",
    media_type := 1, source_id := some 2, favorite := false, series_id := none,
    group_id := none }

/-- C5 counterexample: the group row ("News", source 2) exists, the cache
is empty, and `set_channel_group_id` returns an error instead of the
existing id 1. -/
theorem set_channel_group_id_existing_group_counterexample :
    exDb5.groups.map (fun g => (g.name, g.source_id)) = [("News", some 2)] ∧
    set_channel_group_id [] exCh5 2 exDb5 = .error "Failed to insert group: News" := by
  exact ⟨by decide, rfl⟩

/-- A second existing-group database, for the amended claim's witness. -/
def exDb5w : DB :=
  { groups := [{ id := 4, name := "Sports", image := none, source_id := some 7 }]
    nextGroupId := 5 }

/-- A channel to import whose group name is "Sports". -/
def exCh5w : Channel :=
  { id := none, name := "y", group := some "Sports", image := none, url := some "v",
    media_type := 1, source_id := some 7, favorite := false, series_id := none,
    group_id := none }

/-- C5 witness: the amended claim at a concrete cache-miss input. -/
theorem set_channel_group_id_cache_miss_errors_witness :
    set_channel_group_id [] exCh5w 7 exDb5w = .error "Failed to insert group: Sports" :=
  set_channel_group_id_cache_miss_errors [] exCh5w exDb5w 7 "Sports" rfl rfl
    ⟨{ id := 4, name := "Sports", image := none, source_id := some 7 }, by decide, rfl, rfl⟩

/-- An all-empty header set: every field the caller can supply is absent. -/
def exEmptyH : ChannelHttpHeaders :=
  { id := none, channel_id := none, referrer := none, user_agent := none,
    http_origin := none, ignore_ssl := none }

/-- C9 (amended): the all-empty-equivalent-to-absent rule holds on the add
path only — `add_custom_channel` with an all-empty header set persists no
header row; `edit_custom_channel_tx`, by contrast, upserts the header row
even when every field is absent (see the counterexample). -/
theorem add_custom_channel_skips_empty_headers (db : DB) (ch : CustomChannel)
    (h : ChannelHttpHeaders) (hh : ch.headers = some h)
    (he : channel_headers_empty h = true) :
    (add_custom_channel ch db).headers = db.headers := by
  unfold add_custom_channel
  rw [hh]
  simp only [he, if_pos]
  exact insert_channel_preserves_headers ch.data db

/-- A custom channel carrying an all-empty header set, for the add path. -/
def exCh9a : CustomChannel :=
  { data :=
      { id := none, name := "n", group := none, image := none, url := some "w",
        media_type := 1, source_id := some 1, favorite := false, series_id := none,
        group_id := none }
    headers := some exEmptyH }

/-- C9 witness: adding `exCh9a` to `exDb1` stores no header row. -/
theorem add_custom_channel_skips_empty_headers_witness :
    (add_custom_channel exCh9a exDb1).headers = exDb1.headers :=
  add_custom_channel_skips_empty_headers exDb1 exCh9a exEmptyH rfl rfl

/-- A database holding the custom channel row 7 and no header rows. -/
def exDb9 : DB :=
  { channels :=
      [{ id := 7, name := "c", image := none, url := some "u", media_type := 1,
         source_id := some 1, favorite := false, series_id := none, group_id := none }]
    nextChannelId := 8 }

/-- An edit of channel 7 that supplies an all-empty header set. -/
def exCh9 : CustomChannel :=
  { data :=
      { id := some 7, name := "c", group := none, image := none, url := some "u",
        media_type := 1, source_id := some 1, favorite := false, series_id := none,
        group_id := none }
    headers := some exEmptyH }

/-- C9 counterexample: editing channel 7 with an all-empty header set
succeeds and leaves a `channel_http_headers` row for channel 7 — the edit
path does not treat the all-empty set as absent. -/
theorem edit_custom_channel_persists_empty_headers_counterexample :
    channel_headers_empty exEmptyH = true ∧
    (edit_custom_channel {} exCh9 exDb9).1 = none ∧
    (edit_custom_channel {} exCh9 exDb9).2.headers.map (fun r => r.channel_id)
      = [some 7] := by
  refine ⟨?_, ?_, ?_⟩ <;> decide

/-- A categories view of source 1, page 9 — two pages of 36 would cover
the 40 groups below, so the claim demands an empty result here. -/
def exF2 : Filters :=
  { page := 9, query := none, media_types := none, source_ids := [1],
    view_type := view_type.CATEGORIES, group_id := none, series_id := none }

/-- Forty groups of source 1 (rowids 1..40), all matching the empty text
filter. -/
def exDb40 : DB :=
  { groups := (List.range 40).map
      (fun i => { id := Int.ofNat i + 1, name := "g", image := none, source_id := some 1 })
    nextGroupId := 41 }

/-- C2: at page 9 the group-browse query's `u8` offset arithmetic
(`page * PAGE_SIZE - PAGE_SIZE`) wraps modulo 256 — the offset is 32, not
`(9 - 1) * 36 = 288` — so on a 40-group catalog (2 pages) the far-beyond-
last page 9 returns 8 rows instead of the empty list the claim requires
(and a debug build panics on the multiplication instead). -/
theorem search_group_page9_wraps :
    PAGE_SIZE = 36 ∧
    (exDb40.groups.filter (groupPred exF2)).length = 40 ∧
    (9 * PAGE_SIZE + 256 - PAGE_SIZE) % 256 = 32 ∧
    (search exF2 exDb40).map List.length = some 8 := by
  refine ⟨?_, ?_, ?_, ?_⟩ <;> decide

end OpenTV
